import Mathlib

/-!
Verification of the TinMan `compute_and_apply_rhs` RHS-evaluation kernel
(ACME-Climate/compute_apply_rhs).  The per-element, per-point computations of
the two C++ variants (`kokkos_scratch` and `kokkos_basic`) are shallowly
embedded over exact rational arithmetic.  The horizontal grid is abstracted
by a point type `P`, and the external spherical differential operators
(gradient, divergence, vorticity) are parameters, as in the source they are
pure external collaborators.  The vertical dimension `NUM_LEV` is a
compile-time constant in the source headers; it appears here as a natural
number parameter `nlev`.
-/

namespace TinMan

/-- Interface-level count: `NUM_LEV_P = NUM_LEV + 1` (Types.hpp). -/
def NUM_LEV_P (nlev : ℕ) : ℕ := nlev + 1

/-! ### Pressure reconstruction (kokkos_scratch `compute_pressure`,
kokkos_basic lines 108-124), per column -/

/-- Full-level pressure for one column, from the current `DP3D`:
`pressure(0) = hybrid_a(0)*ps0 + 0.5*dp3d(0)`,
`pressure(l) = pressure(l-1) + 0.5*(dp3d(l-1) + dp3d(l))`. -/
def compute_pressure_col (hybrid_a0 ps0 : ℚ) (dp3d : ℕ → ℚ) : ℕ → ℚ
  | 0 => hybrid_a0 * ps0 + (1/2) * dp3d 0
  | l + 1 => compute_pressure_col hybrid_a0 ps0 dp3d l + (1/2) * (dp3d l + dp3d (l + 1))

/-! ### Hydrostatic geopotential scan, per column -/

/-- Full-level hydrostatic increment `Rgas * T_v(l) * (dp(l)/p(l))`
(the quantity called `lev_term`, resp. `Rgas*T_v*hkl`, in the sources). -/
def hydroInc (Rgas : ℚ) (T_v p dp : ℕ → ℚ) (l : ℕ) : ℚ :=
  Rgas * T_v l * (dp l / p l)

/-- Running integral of the bottom-up hydrostatic scan: value of `phii`
after the scan has processed the levels `bot, bot-1, ..., bot-j`
(each contributing its full-level increment). -/
def hydroPhiiAux (inc : ℕ → ℚ) (bot : ℕ) : ℕ → ℚ
  | 0 => inc bot
  | j + 1 => hydroPhiiAux inc bot j + inc (bot - (j + 1))

/-- The kokkos_scratch `preq_hydrostatic` (compute_and_apply_rhs.cpp lines
152-196), for one column: bottom level `nlev-1` initializes `phii` to the
full increment and writes `phis + phii*0.5`; the loop runs `ilev` from
`nlev-2` down while `ilev > 0`, writing `phis + phii + lev_term*0.5` and then
adding `lev_term` to `phii`; level 0 writes `phis + phii + Rgas*T_v(0)*hk`
with `hk = 0.5*dp(0)/p(0)`. -/
def preq_hydrostatic_col (nlev : ℕ) (Rgas phis : ℚ) (T_v p dp : ℕ → ℚ) (l : ℕ) : ℚ :=
  let inc := hydroInc Rgas T_v p dp
  if l + 1 = nlev then
    phis + inc l * (1/2)
  else if l = 0 then
    phis + hydroPhiiAux inc (nlev - 1) (nlev - 2) + Rgas * T_v 0 * ((1/2) * dp 0 / p 0)
  else
    phis + hydroPhiiAux inc (nlev - 1) (nlev - 2 - l) + inc l * (1/2)

/-- Final contents of the `phii` array of the kokkos_basic `preq_hydrostatic`
(compute_and_apply_rhs.cpp lines 281-315 and the team overload at 249-279).
The bottom block sets `phii[nlev-1] = Rgas*T_v*hkl` (`hkl = dp/p`); the loop
`for (ilev = nlev-2; ilev > 1; --ilev)` sets
`phii[ilev] = phii[ilev+1] + Rgas*T_v*hkl`; every other entry keeps its
initial (uninitialized) content `phii0`. -/
def phiiBasicEnd (nlev : ℕ) (phii0 inc : ℕ → ℚ) (l : ℕ) : ℚ :=
  if l + 1 = nlev then inc l
  else if 2 ≤ l ∧ l + 2 ≤ nlev then hydroPhiiAux inc (nlev - 1) (nlev - 1 - l)
  else phii0 l

/-- The kokkos_basic `preq_hydrostatic`, for one column.  Writes
`phi(nlev-1)`, then `phi(ilev)` for `ilev = nlev-2` down while `ilev > 1`,
then `phi(0)` (which reads `phii[1]`); any other level keeps its prior
content `phi0`. -/
def preq_hydrostatic_basic_col (nlev : ℕ) (Rgas phis : ℚ) (T_v p dp phi0 phii0 : ℕ → ℚ)
    (l : ℕ) : ℚ :=
  let inc := hydroInc Rgas T_v p dp
  if l + 1 = nlev then
    phis + Rgas * T_v l * ((1/2) * dp l / p l)
  else if 2 ≤ l ∧ l + 2 ≤ nlev then
    phis + phiiBasicEnd nlev phii0 inc (l + 1) + Rgas * T_v l * ((1/2) * dp l / p l)
  else if l = 0 then
    phis + phiiBasicEnd nlev phii0 inc 1 + Rgas * T_v 0 * ((1/2) * dp 0 / p 0)
  else
    phi0 l

/-! ### Omega-ps scan (kokkos_scratch `preq_omega_ps_init/loop/tail`,
kokkos_basic `preq_omega_ps`), per column -/

/-- One column of the omega-ps scan, carrying the running sum `suml`.
Level 0: `omega_p(0) = vgrad_p(0)/p(0) - ckk*div_vdp(0)` with
`ckk = 0.5/p(0)` and `suml = div_vdp(0)`.  Level `l+1`:
`ckk = 0.5/p(l+1)`, `ckl = 2*ckk`,
`omega_p(l+1) = vgrad_p(l+1)/p(l+1) - ckl*suml - ckk*div_vdp(l+1)`, then
`suml += div_vdp(l+1)` (the tail level computes the same value; its `suml`
update is dead). -/
def preq_omega_ps_go (p vgrad_p div_vdp : ℕ → ℚ) : ℕ → ℚ × ℚ
  | 0 => (vgrad_p 0 / p 0 - ((1/2) / p 0) * div_vdp 0, div_vdp 0)
  | l + 1 =>
    let suml := (preq_omega_ps_go p vgrad_p div_vdp l).2
    let ckk := (1/2) / p (l + 1)
    (vgrad_p (l + 1) / p (l + 1) - (2 * ckk) * suml - ckk * div_vdp (l + 1),
     suml + div_vdp (l + 1))

/-- The omega-ps value written at level `l` of one column. -/
def omega_p_col (p vgrad_p div_vdp : ℕ → ℚ) (l : ℕ) : ℚ :=
  (preq_omega_ps_go p vgrad_p div_vdp l).1

/-! ### The kokkos_basic final update block and its loop extents -/

/-- The kokkos_basic leapfrog block (compute_and_apply_rhs.cpp lines 235-244),
for one level and point: the four `np1` (future) values written for
U, V, T, DP3D, in that order.  Note the source writes V from `vtens1` and
DP3D from `+ dt2 * div_vdp`. -/
def leapfrog_basic (spheremp dt2 uPrev vPrev tPrev dpPrev vtens1 vtens2 ttens divvdp : ℚ) :
    ℚ × ℚ × ℚ × ℚ :=
  (spheremp * (uPrev + dt2 * vtens1),
   spheremp * (vPrev + dt2 * vtens1),
   spheremp * (tPrev + dt2 * ttens),
   spheremp * (dpPrev + dt2 * divvdp))

/-- Level indices covered by the kokkos_scratch `compute_velocity_eta_dpdn`
loop, `Kokkos::TeamThreadRange(team, NUM_LEV)` (lines 56-64): the levels at
which `compute_eta_dpdn` accumulates into `ETA_DPDN`. -/
def etaWriteLevels_scratch (nlev : ℕ) : List ℕ := List.range nlev

/-- Level indices of the kokkos_basic accumulation and tendency-assembly
loops at lines 181-188 and 192-231: both are
`Kokkos::TeamThreadRange(team, NUM_LEV_P)`. -/
def tendencyLoopLevels_basic (nlev : ℕ) : List ℕ := List.range (NUM_LEV_P nlev)

/-- Declared vertical extent of the `[NUM_LEV][NP][NP]` views read in those
loops (`omega_p`, `T_v`, `p`, `vort`, `grad_p`, `kappa_star`, and the
`PHI`/`OMEGA_P`/`U`/`V`/`T` element fields). -/
def num_lev_extent (nlev : ℕ) : ℕ := nlev

/-! ### Per-element state model (kokkos_scratch variant) -/

/-- A 2x2 metric tensor value (`D`, `DInv` entries at one point). -/
abbrev Tensor2 : Type := (ℚ × ℚ) × (ℚ × ℚ)

/-- Scalar constants of `PhysicalConstants` (TestData.hpp) consumed by the
kernel. -/
structure PhysConsts where
  Rgas : ℚ
  Rwater_vapor : ℚ
  kappa : ℚ
  eta_ave_w : ℚ

/-- The `Control` scalars consumed by the kernel (`dt2`, `qn0`,
`hybrid_a(0)`, `ps0`) together with the compile-time level count. -/
structure Control where
  dt2 : ℚ
  qn0 : ℤ
  hybrid_a0 : ℚ
  ps0 : ℚ
  nlev : ℕ

/-- The external spherical operator library (sphere_operators.hpp), pure
functions over whole horizontal fields: gradient takes `DInv`; divergence
takes `metDet` and `DInv`; vorticity takes `u`, `v`, `metDet` and `D`. -/
structure SphereOps (P : Type) where
  gradient_sphere : (P → ℚ) → (P → Tensor2) → P → ℚ × ℚ
  divergence_sphere : (P → ℚ × ℚ) → (P → ℚ) → (P → Tensor2) → P → ℚ
  vorticity_sphere : (P → ℚ) → (P → ℚ) → (P → ℚ) → (P → Tensor2) → P → ℚ

/-- One element's slice of the Region: prognostic fields in their three
time slots, the geopotential `PHI`, the time-invariant metric fields, the
accumulator diagnostics, and the tracer field `QDP` (indexed tracer, time
level, vertical level, point). -/
structure ElemState (P : Type) where
  U_current : ℕ → P → ℚ
  U_previous : ℕ → P → ℚ
  U_future : ℕ → P → ℚ
  V_current : ℕ → P → ℚ
  V_previous : ℕ → P → ℚ
  V_future : ℕ → P → ℚ
  T_current : ℕ → P → ℚ
  T_previous : ℕ → P → ℚ
  T_future : ℕ → P → ℚ
  DP3D_current : ℕ → P → ℚ
  DP3D_previous : ℕ → P → ℚ
  DP3D_future : ℕ → P → ℚ
  PHI : ℕ → P → ℚ
  PECND : ℕ → P → ℚ
  PHIS : P → ℚ
  FCOR : P → ℚ
  SPHEREMP : P → ℚ
  METDET : P → ℚ
  D : P → Tensor2
  DINV : P → Tensor2
  DERIVED_UN0 : ℕ → P → ℚ
  DERIVED_VN0 : ℕ → P → ℚ
  OMEGA_P : ℕ → P → ℚ
  ETA_DPDN : ℕ → P → ℚ
  QDP : ℕ → ℤ → ℕ → P → ℚ

/-- Virtual temperature (kokkos_scratch
`compute_temperature_no_tracers_helper` / `compute_temperature_tracers_helper`,
lines 352-382): if `qn0 == -1` it is the current temperature; otherwise it is
corrected by `Qt = QDP(0, qn0, level) / DP3D_current(level)`. -/
def compute_T_v {P : Type} (qn0 : ℤ) (k : PhysConsts) (T_current DP3D_current : ℕ → P → ℚ)
    (QDP : ℕ → ℤ → ℕ → P → ℚ) : ℕ → P → ℚ :=
  fun l pt =>
    if qn0 = -1 then
      T_current l pt
    else
      T_current l pt *
        (1 + (k.Rwater_vapor / k.Rgas - 1) * (QDP 0 qn0 l pt / DP3D_current l pt))

/-- One invocation of the kokkos_scratch `update_state` functor body
(lines 580-594) for one element, given the virtual temperature field:
`compute_temperature_div_vdp` (mass flux, accumulators, flux divergence),
`compute_scan_properties` (pressure scan, hydrostatic scan, omega-ps scan),
`compute_velocity_eta_dpdn` (momentum leapfrog and `ETA_DPDN` accumulation
with the placeholder-zero vertical flux), and `compute_stuff` (omega
accumulation, temperature and mass leapfrog).  Levels at or beyond `nlev`
are outside every loop and keep their prior content. -/
def rhs_assemble {P : Type} (dt2 hybrid_a0 ps0 : ℚ) (nlev : ℕ) (k : PhysConsts)
    (ops : SphereOps P) (s : ElemState P) (T_v : ℕ → P → ℚ) : ElemState P :=
  let pressure : ℕ → P → ℚ := fun l pt =>
    compute_pressure_col hybrid_a0 ps0 (fun j => s.DP3D_current j pt) l
  let vdp : ℕ → P → ℚ × ℚ := fun l pt =>
    (s.U_current l pt * s.DP3D_current l pt, s.V_current l pt * s.DP3D_current l pt)
  let div_vdp : ℕ → P → ℚ := fun l => ops.divergence_sphere (vdp l) s.METDET s.DINV
  let phi : ℕ → P → ℚ := fun l pt =>
    preq_hydrostatic_col nlev k.Rgas (s.PHIS pt) (fun j => T_v j pt)
      (fun j => pressure j pt) (fun j => s.DP3D_current j pt) l
  let grad_p : ℕ → P → ℚ × ℚ := fun l => ops.gradient_sphere (pressure l) s.DINV
  let vgrad_p : ℕ → P → ℚ := fun l pt =>
    s.U_current l pt * (grad_p l pt).1 + s.V_current l pt * (grad_p l pt).2
  let omega_p : ℕ → P → ℚ := fun l pt =>
    omega_p_col (fun j => pressure j pt) (fun j => vgrad_p j pt) (fun j => div_vdp j pt) l
  let Ephi : ℕ → P → ℚ := fun l pt =>
    (1/2) * (s.U_current l pt * s.U_current l pt + s.V_current l pt * s.V_current l pt) +
      phi l pt + s.PECND l pt
  let grad_buf : ℕ → P → ℚ × ℚ := fun l pt =>
    let g := ops.gradient_sphere (pressure l) s.DINV pt
    let gpterm := T_v l pt / pressure l pt
    let ge := ops.gradient_sphere (Ephi l) s.DINV pt
    (k.Rgas * gpterm * g.1 + ge.1, k.Rgas * gpterm * g.2 + ge.2)
  let vort : ℕ → P → ℚ := fun l pt =>
    ops.vorticity_sphere (s.U_current l) (s.V_current l) s.METDET s.D pt + s.FCOR pt
  let vtens1 : ℕ → P → ℚ := fun l pt =>
    s.V_current l pt * vort l pt - (grad_buf l pt).1
  let vtens2 : ℕ → P → ℚ := fun l pt =>
    -(s.U_current l pt) * vort l pt - (grad_buf l pt).2
  let grad_T : ℕ → P → ℚ × ℚ := fun l => ops.gradient_sphere (s.T_current l) s.DINV
  let ttens : ℕ → P → ℚ := fun l pt =>
    0 - (s.U_current l pt * (grad_T l pt).1 + s.V_current l pt * (grad_T l pt).2) +
      k.kappa * T_v l pt * omega_p l pt
  { s with
    U_future := fun l pt =>
      if l < nlev then s.SPHEREMP pt * (s.U_previous l pt + dt2 * vtens1 l pt)
      else s.U_future l pt
    V_future := fun l pt =>
      if l < nlev then s.SPHEREMP pt * (s.V_previous l pt + dt2 * vtens2 l pt)
      else s.V_future l pt
    T_future := fun l pt =>
      if l < nlev then s.SPHEREMP pt * (s.T_previous l pt + dt2 * ttens l pt)
      else s.T_future l pt
    DP3D_future := fun l pt =>
      if l < nlev then s.SPHEREMP pt * (s.DP3D_previous l pt - dt2 * div_vdp l pt)
      else s.DP3D_future l pt
    PHI := fun l pt => if l < nlev then phi l pt else s.PHI l pt
    DERIVED_UN0 := fun l pt =>
      if l < nlev then s.DERIVED_UN0 l pt + k.eta_ave_w * (vdp l pt).1
      else s.DERIVED_UN0 l pt
    DERIVED_VN0 := fun l pt =>
      if l < nlev then s.DERIVED_VN0 l pt + k.eta_ave_w * (vdp l pt).2
      else s.DERIVED_VN0 l pt
    OMEGA_P := fun l pt =>
      if l < nlev then s.OMEGA_P l pt + k.eta_ave_w * omega_p l pt
      else s.OMEGA_P l pt
    ETA_DPDN := fun l pt =>
      if l < nlev then s.ETA_DPDN l pt + k.eta_ave_w * 0
      else s.ETA_DPDN l pt }

/-- One invocation of the kokkos_scratch kernel for one element. -/
def update_state {P : Type} (c : Control) (k : PhysConsts) (ops : SphereOps P)
    (s : ElemState P) : ElemState P :=
  rhs_assemble c.dt2 c.hybrid_a0 c.ps0 c.nlev k ops s
    (compute_T_v c.qn0 k s.T_current s.DP3D_current s.QDP)

/-! ### Concrete test instances (single horizontal point) -/

/-- Sphere operators over a single point whose divergence is identically 1
and whose gradient and vorticity are identically 0 (a legitimate instance of
the external operator contract). -/
def onesOps : SphereOps Unit where
  gradient_sphere := fun _ _ _ => (0, 0)
  divergence_sphere := fun _ _ _ _ => 1
  vorticity_sphere := fun _ _ _ _ _ => 0

/-- Concrete physical constants for evaluation. -/
def baseConsts : PhysConsts where
  Rgas := 1
  Rwater_vapor := 2
  kappa := 1
  eta_ave_w := 1

/-- Concrete control data: two levels, unit half-step, tracers off. -/
def baseControl : Control where
  dt2 := 1
  qn0 := -1
  hybrid_a0 := 0
  ps0 := 0
  nlev := 2

/-- `baseControl` with the moisture correction switched on (`qn0 = 0`). -/
def qn0Control : Control := { baseControl with qn0 := 0 }

/-- A concrete single-point element state: unit temperature, unit
pressure-thickness, zero winds, zero tracer field, unit surface geopotential
and mass matrix, zero accumulators except `ETA_DPDN = 5`. -/
def baseState : ElemState Unit where
  U_current := fun _ _ => 0
  U_previous := fun _ _ => 0
  U_future := fun _ _ => 0
  V_current := fun _ _ => 0
  V_previous := fun _ _ => 0
  V_future := fun _ _ => 0
  T_current := fun _ _ => 1
  T_previous := fun _ _ => 0
  T_future := fun _ _ => 0
  DP3D_current := fun _ _ => 1
  DP3D_previous := fun _ _ => 0
  DP3D_future := fun _ _ => 0
  PHI := fun _ _ => 0
  PECND := fun _ _ => 0
  PHIS := fun _ => 1
  FCOR := fun _ => 0
  SPHEREMP := fun _ => 1
  METDET := fun _ => 1
  D := fun _ => ((1, 0), (0, 1))
  DINV := fun _ => ((1, 0), (0, 1))
  DERIVED_UN0 := fun _ _ => 0
  DERIVED_VN0 := fun _ _ => 0
  OMEGA_P := fun _ _ => 0
  ETA_DPDN := fun _ _ => 5
  QDP := fun _ _ _ _ => 0

/-! ### Theorems -/

/-- Claim C1: the pressure reconstruction satisfies
`pressure[0] = hybrid_a0*ps0 + 0.5*dp3d[0]` and
`pressure[l] = pressure[l-1] + 0.5*(dp3d[l-1] + dp3d[l])`; consequently, for
a column with constant `dp3d`, `pressure[l] = hybrid_a0*ps0 + const*(l + 0.5)`. -/
theorem claim_c1_pressure (hybrid_a0 ps0 c : ℚ) (dp3d : ℕ → ℚ) (h : ∀ l, dp3d l = c) :
    compute_pressure_col hybrid_a0 ps0 dp3d 0 = hybrid_a0 * ps0 + (1/2) * dp3d 0 ∧
    (∀ l : ℕ, compute_pressure_col hybrid_a0 ps0 dp3d (l + 1) =
      compute_pressure_col hybrid_a0 ps0 dp3d l + (1/2) * (dp3d l + dp3d (l + 1))) ∧
    (∀ l : ℕ, compute_pressure_col hybrid_a0 ps0 dp3d l =
      hybrid_a0 * ps0 + c * ((l : ℚ) + 1/2)) := by
  refine ⟨rfl, fun l => rfl, ?_⟩
  intro l
  induction l with
  | zero =>
    simp only [compute_pressure_col, h 0]
    push_cast
    ring
  | succ n ih =>
    simp only [compute_pressure_col, h n, h (n + 1), ih]
    push_cast
    ring

/-- Witness for C1 at `hybrid_a0 = 1`, `ps0 = 3`, `dp3d ≡ 2`, level 3. -/
theorem claim_c1_pressure_witness :
    compute_pressure_col 1 3 (fun _ => (2 : ℚ)) 3 = 1 * 3 + 2 * (((3 : ℕ) : ℚ) + 1/2) :=
  (claim_c1_pressure 1 3 2 (fun _ => 2) (fun _ => rfl)).2.2 3

/-- The running sum of the omega-ps scan after level `l` is the prefix sum of
the horizontal flux divergence over levels `0..l`. -/
theorem preq_omega_ps_suml (p vgrad_p div_vdp : ℕ → ℚ) (l : ℕ) :
    (preq_omega_ps_go p vgrad_p div_vdp l).2 = ∑ k ∈ Finset.range (l + 1), div_vdp k := by
  induction l with
  | zero => simp [preq_omega_ps_go]
  | succ n ih => simp [preq_omega_ps_go, ih, Finset.sum_range_succ]

/-- Claim C3: the omega-ps scan writes
`omega_p[0] = vgrad_p/pressure[0] - 0.5*div_vdp[0]/pressure[0]`, and at every
later level `omega_p[l] = vgrad_p/pressure[l] - ckl*suml - ckk*div_vdp[l]`
with `ckk = 0.5/pressure[l]`, `ckl = 2*ckk` and `suml` the prefix sum of
`div_vdp` below `l`; equivalently
`omega_p[l] = (vgrad_p - suml - 0.5*div_vdp[l]) / pressure[l]`. -/
theorem claim_c3_omega_ps (p vgrad_p div_vdp : ℕ → ℚ) :
    omega_p_col p vgrad_p div_vdp 0 = vgrad_p 0 / p 0 - (1/2) * div_vdp 0 / p 0 ∧
    (∀ l : ℕ, omega_p_col p vgrad_p div_vdp (l + 1) =
      vgrad_p (l + 1) / p (l + 1)
        - (2 * ((1/2) / p (l + 1))) * (∑ k ∈ Finset.range (l + 1), div_vdp k)
        - ((1/2) / p (l + 1)) * div_vdp (l + 1)) ∧
    (∀ l : ℕ, omega_p_col p vgrad_p div_vdp l =
      (vgrad_p l - (∑ k ∈ Finset.range l, div_vdp k) - (1/2) * div_vdp l) / p l) := by
  refine ⟨?_, ?_, ?_⟩
  · simp only [omega_p_col, preq_omega_ps_go]
    ring
  · intro l
    simp only [omega_p_col, preq_omega_ps_go, preq_omega_ps_suml]
  · intro l
    cases l with
    | zero =>
      simp only [omega_p_col, preq_omega_ps_go, Finset.range_zero, Finset.sum_empty]
      ring
    | succ n =>
      simp only [omega_p_col, preq_omega_ps_go, preq_omega_ps_suml]
      ring

/-- Claim C6: if every `dp3d` value is positive and `hybrid_a0*ps0` is
nonnegative, the reconstructed pressure is positive at every level, strictly
increasing with level index, and in particular a nonzero divisor. -/
theorem claim_c6_pressure_positive (hybrid_a0 ps0 : ℚ) (dp3d : ℕ → ℚ)
    (h1 : ∀ l, 0 < dp3d l) (h2 : 0 ≤ hybrid_a0 * ps0) :
    (∀ l : ℕ, 0 < compute_pressure_col hybrid_a0 ps0 dp3d l) ∧
    (∀ l : ℕ, compute_pressure_col hybrid_a0 ps0 dp3d l <
      compute_pressure_col hybrid_a0 ps0 dp3d (l + 1)) ∧
    (∀ l : ℕ, compute_pressure_col hybrid_a0 ps0 dp3d l ≠ 0) := by
  have hpos : ∀ l : ℕ, 0 < compute_pressure_col hybrid_a0 ps0 dp3d l := by
    intro l
    induction l with
    | zero =>
      simp only [compute_pressure_col]
      linarith [h1 0]
    | succ n ih =>
      simp only [compute_pressure_col]
      linarith [h1 n, h1 (n + 1)]
  refine ⟨hpos, ?_, fun l => (hpos l).ne'⟩
  intro l
  simp only [compute_pressure_col]
  linarith [h1 l, h1 (l + 1)]

/-- Witness for C6 at `hybrid_a0 = ps0 = 0`, `dp3d ≡ 1`, levels 2 and 3. -/
theorem claim_c6_pressure_positive_witness :
    0 < compute_pressure_col 0 0 (fun _ => (1 : ℚ)) 2 ∧
    compute_pressure_col 0 0 (fun _ => (1 : ℚ)) 2 <
      compute_pressure_col 0 0 (fun _ => (1 : ℚ)) 3 ∧
    compute_pressure_col 0 0 (fun _ => (1 : ℚ)) 2 ≠ 0 :=
  ⟨(claim_c6_pressure_positive 0 0 (fun _ => 1) (fun _ => one_pos) (by norm_num)).1 2,
   (claim_c6_pressure_positive 0 0 (fun _ => 1) (fun _ => one_pos) (by norm_num)).2.1 2,
   (claim_c6_pressure_positive 0 0 (fun _ => 1) (fun _ => one_pos) (by norm_num)).2.2 2⟩

/-- Claim C2: with `NUM_LEV = 4`, `Rgas = 1`, `phis = 0` and unit
`T_v`, `p`, `dp` columns, the kokkos_basic hydrostatic scan (middle loop
condition `ilev > 1`) leaves level 1 at its prior content (sentinel 888)
and computes level 0 from the uninitialized `phii[1]` (sentinel 777), while
the kokkos_scratch scan (loop condition `ilev > 0`) writes level 1 with the
claimed value `phis + inc(3) + inc(2) + 0.5*inc(1) = 5/2`. -/
theorem claim_c2_hydrostatic_basic_skips_level_one :
    preq_hydrostatic_basic_col 4 1 0 (fun _ => 1) (fun _ => 1) (fun _ => 1)
      (fun _ => 888) (fun _ => 777) 1 = 888 ∧
    preq_hydrostatic_basic_col 4 1 0 (fun _ => 1) (fun _ => 1) (fun _ => 1)
      (fun _ => 888) (fun _ => 777) 0 = 777 + 1/2 ∧
    preq_hydrostatic_col 4 1 0 (fun _ => 1) (fun _ => 1) (fun _ => 1) 1 = 5/2 := by
  refine ⟨?_, ?_, ?_⟩ <;>
    · simp only [preq_hydrostatic_basic_col, preq_hydrostatic_col, phiiBasicEnd,
        hydroPhiiAux, hydroInc]
      norm_num

/-- Claim C4: the kokkos_basic leapfrog block, evaluated at `spheremp = 1`,
`dt2 = 1`, zero previous values, `vtens1 = 3`, `vtens2 = 5`, `ttens = 7`,
`div_vdp = 2`, writes `(3, 3, 7, 2)`: V's future value is built from U's
tendency `vtens1` and DP3D's from `+dt2*div_vdp`, not the claimed
`(3, 5, 7, -2)`. -/
theorem claim_c4_leapfrog_basic_divergence :
    leapfrog_basic 1 1 0 0 0 0 3 5 7 2 = (3, 3, 7, 2) ∧
    leapfrog_basic 1 1 0 0 0 0 3 5 7 2 ≠ (3, 5, 7, -2) := by
  refine ⟨?_, ?_⟩ <;>
    · simp only [leapfrog_basic, Prod.mk.injEq, ne_eq, not_and]
      norm_num

/-- Claim C5: on the same single-point input state (unit `spheremp`, zero
previous `DP3D`, `dt2 = 1`, horizontal flux divergence identically 1), the
kokkos_scratch kernel writes `DP3D` future `= -1` while the kokkos_basic
leapfrog block writes `+1`: the two paths do not produce the same
future-slot values. -/
theorem claim_c5_cross_variant_divergence :
    (update_state baseControl baseConsts onesOps baseState).DP3D_future 0 () ≠
      (leapfrog_basic 1 1 0 0 0 0 0 0 0 1).2.2.2 ∧
    (update_state baseControl baseConsts onesOps baseState).DP3D_future 0 () = -1 ∧
    (leapfrog_basic 1 1 0 0 0 0 0 0 0 1).2.2.2 = 1 := by
  have hDP : (update_state baseControl baseConsts onesOps baseState).DP3D_future 0 () = -1 := by
    show (if (0 : ℕ) < 2 then
        baseState.SPHEREMP () *
          (baseState.DP3D_previous 0 () -
            baseControl.dt2 *
              onesOps.divergence_sphere
                (fun pt => (baseState.U_current 0 pt * baseState.DP3D_current 0 pt,
                  baseState.V_current 0 pt * baseState.DP3D_current 0 pt))
                baseState.METDET baseState.DINV ())
      else baseState.DP3D_future 0 ()) = -1
    norm_num [baseState, baseControl, onesOps]
  have hLf : (leapfrog_basic 1 1 0 0 0 0 0 0 0 1).2.2.2 = 1 := by
    norm_num [leapfrog_basic]
  refine ⟨?_, hDP, hLf⟩
  rw [hDP, hLf]
  norm_num

/-- Claim C7: if the tracer field `QDP` is identically zero, one invocation
with any `qn0` produces exactly the same output state as one with
`qn0 = -1`: the moisture correction factor reduces to 1. -/
theorem claim_c7_moisture_switch {P : Type} (c : Control) (k : PhysConsts)
    (ops : SphereOps P) (s : ElemState P)
    (h : ∀ (tr : ℕ) (t : ℤ) (l : ℕ) (pt : P), s.QDP tr t l pt = 0) :
    update_state c k ops s = update_state { c with qn0 := -1 } k ops s := by
  have hTv : compute_T_v c.qn0 k s.T_current s.DP3D_current s.QDP
      = compute_T_v (-1 : ℤ) k s.T_current s.DP3D_current s.QDP := by
    funext l pt
    by_cases hq : c.qn0 = -1
    · rw [hq]
    · simp [compute_T_v, hq, h 0 c.qn0 l pt]
  exact congrArg (rhs_assemble c.dt2 c.hybrid_a0 c.ps0 c.nlev k ops s) hTv

/-- Witness for C7: the concrete two-level state `baseState` has a zero
tracer field, and the kernel output with `qn0 = 0` equals that with
`qn0 = -1`. -/
theorem claim_c7_moisture_switch_witness :
    update_state qn0Control baseConsts onesOps baseState
      = update_state { qn0Control with qn0 := -1 } baseConsts onesOps baseState :=
  claim_c7_moisture_switch qn0Control baseConsts onesOps baseState (fun _ _ _ _ => rfl)

/-- Counterexample to C8 as stated: with `NUM_LEV = 4` the claim asserts
accumulation at every one of the `NUM_LEV_P = 5` interface levels, but the
kokkos_scratch `compute_velocity_eta_dpdn` loop runs over `NUM_LEV` levels
only, so interface level 4 is never accumulated. -/
theorem claim_c8_eta_counterexample :
    NUM_LEV_P 4 = 5 ∧ (4 : ℕ) ∈ List.range (NUM_LEV_P 4) ∧
    (4 : ℕ) ∉ etaWriteLevels_scratch 4 := by
  decide

/-- Claim C8 as amended: the kokkos_scratch kernel accumulates into
`ETA_DPDN` at the first `NUM_LEV` interface levels with increment
`eta_ave_w` times the placeholder-zero vertical flux, so every entry of
`ETA_DPDN` (accumulated or not) retains its prior value. -/
theorem claim_c8_eta_unchanged {P : Type} (c : Control) (k : PhysConsts)
    (ops : SphereOps P) (s : ElemState P) :
    (∀ (l : ℕ) (pt : P), (update_state c k ops s).ETA_DPDN l pt = s.ETA_DPDN l pt) ∧
    etaWriteLevels_scratch c.nlev = List.range c.nlev := by
  refine ⟨?_, rfl⟩
  intro l pt
  show (if l < c.nlev then s.ETA_DPDN l pt + k.eta_ave_w * 0 else s.ETA_DPDN l pt)
      = s.ETA_DPDN l pt
  split
  · ring
  · rfl

/-- Counterexample to C9 as stated: the kernel also modifies the
geopotential field `PHI`, which is neither a future prognostic slot nor one
of the four accumulator fields: on the concrete state `baseState` the
hydrostatic scan overwrites `PHI` at level 1 with `4/3 ≠ 0`. -/
theorem claim_c9_phi_modified :
    (update_state baseControl baseConsts onesOps baseState).PHI 1 () ≠
      baseState.PHI 1 () := by
  have h : (update_state baseControl baseConsts onesOps baseState).PHI 1 () = 4/3 := by
    show (if (1 : ℕ) < 2 then
        preq_hydrostatic_col 2 baseConsts.Rgas (baseState.PHIS ())
          (fun j => compute_T_v baseControl.qn0 baseConsts baseState.T_current
            baseState.DP3D_current baseState.QDP j ())
          (fun j => compute_pressure_col baseControl.hybrid_a0 baseControl.ps0
            (fun i => baseState.DP3D_current i ()) j)
          (fun j => baseState.DP3D_current j ()) 1
      else baseState.PHI 1 ()) = 4/3
    norm_num [preq_hydrostatic_col, hydroInc, compute_T_v, compute_pressure_col,
      baseState, baseControl, baseConsts]
  rw [h]
  norm_num [baseState]

/-- Claim C9 as amended: besides the future prognostic slots, the
accumulator fields and the geopotential `PHI`, nothing is modified: the
current and previous prognostic slots, the time-invariant metric fields,
`PECND` and the tracer field `QDP` are unchanged by one invocation. -/
theorem claim_c9_frame {P : Type} (c : Control) (k : PhysConsts)
    (ops : SphereOps P) (s : ElemState P) :
    (update_state c k ops s).U_current = s.U_current ∧
    (update_state c k ops s).U_previous = s.U_previous ∧
    (update_state c k ops s).V_current = s.V_current ∧
    (update_state c k ops s).V_previous = s.V_previous ∧
    (update_state c k ops s).T_current = s.T_current ∧
    (update_state c k ops s).T_previous = s.T_previous ∧
    (update_state c k ops s).DP3D_current = s.DP3D_current ∧
    (update_state c k ops s).DP3D_previous = s.DP3D_previous ∧
    (update_state c k ops s).PECND = s.PECND ∧
    (update_state c k ops s).PHIS = s.PHIS ∧
    (update_state c k ops s).FCOR = s.FCOR ∧
    (update_state c k ops s).SPHEREMP = s.SPHEREMP ∧
    (update_state c k ops s).METDET = s.METDET ∧
    (update_state c k ops s).D = s.D ∧
    (update_state c k ops s).DINV = s.DINV ∧
    (update_state c k ops s).QDP = s.QDP :=
  ⟨rfl, rfl, rfl, rfl, rfl, rfl, rfl, rfl, rfl, rfl, rfl, rfl, rfl, rfl, rfl, rfl⟩

/-- Claim C10: the kokkos_basic accumulation and tendency-assembly loops
iterate the level index over `NUM_LEV_P` values, and at level `NUM_LEV`
they access views whose declared vertical extent is `NUM_LEV`: the index
is not strictly below the extent. -/
theorem claim_c10_oob_level_access :
    num_lev_extent 4 ∈ tendencyLoopLevels_basic 4 ∧
    ¬ num_lev_extent 4 < num_lev_extent 4 := by
  decide

end TinMan
